import Mathlib

/-!
Verification development for the Frame AR-glasses connection core
(frame-ble-connect).  The Python sources `src/connect/frame_interface.py`
(class FrameInterface) and `src/connect/haptic_detector.py` (class
HapticDetector) are shallowly embedded: every method becomes a pure Lean
function from an explicit state (the instance attributes the method reads
and writes) and an environment (the outcomes of the awaited SDK calls,
which are outside this core) to a result, a new state and a trace of
observable effects (messages sent to the device, callback invocations,
sleeps).  asyncio queues become FIFO lists, `datetime`/`time.time()`
timestamps and sensor readings become rationals.
-/

namespace FrameSpec

/-- A photo payload (`jpeg_bytes`): a sequence of bytes. -/
abbrev Photo := List Nat

namespace FrameInterface

/-- Observable effects of a FrameInterface method: device I/O
(`frame.send_message`, `frame.send_lua`), callback-hub invocations
(`_safe_callback` on the photo / tap / error / status handler) and
`asyncio.sleep`. -/
inductive Ev
  | sendMessage (msgType : Nat)
  | sendLua
  | photoCb (p : Photo)
  | tapCb
  | errorCb (e : String)
  | statusCb
  | sleep (seconds : ℚ)
  | reconnectAttempt
deriving DecidableEq

/-- The mutable instance attributes of `FrameInterface` that the modelled
methods read or write.  `frame` and `rx_photo` record whether the
corresponding attribute is non-None. -/
structure FrameState where
  is_connected : Bool
  is_running : Bool
  frame : Bool
  rx_photo : Bool
  photo_queue : Option (List Photo)
  capture_count : Nat
  last_capture_time : Option ℚ
  connection_retry_count : Nat
  last_battery_level : Option ℚ
  last_memory_usage : Option String
deriving DecidableEq

/-- `self.max_text_length = 50  # Frame display limitation`. -/
def MAX_TEXT_LENGTH : Nat := 50

/-- The structured error string used by the not-connected guards. -/
def NOT_CONNECTED_MSG : String := "Not connected to Frame glasses"

/-- Python default string whitespace, as used by `str.strip()` (restricted
to the ASCII whitespace characters). -/
def pySpace (c : Char) : Bool :=
  c = ' ' || c = '\t' || c = '\n' || c = '\r' || c = '\x0b' || c = '\x0c'

/-- Truthiness of `not text.strip()`: every character is whitespace. -/
def pyBlank (s : String) : Bool := s.toList.all pySpace

/-- The dict returned by `display_text`. -/
structure DisplayResult where
  success : Bool
  error : Option String := none
  text_displayed : Option String := none
  original_text : Option String := none
  truncated : Option Bool := none
  text_length : Option Nat := none
deriving DecidableEq

/-- `FrameInterface.display_text(text, position_x, position_y)`.
`sendErr` is the outcome of `await self.frame.send_message(0x11, ...)`:
`none` when the send succeeds, `some e` when it raises `e`. -/
def display_text (s : FrameState) (sendErr : Option String) (text : String)
    (position_x position_y : Int) : DisplayResult × List Ev :=
  if ¬ (s.is_connected = true ∧ s.frame = true) then
    ({ success := false, error := some NOT_CONNECTED_MSG }, [])
  else if position_x < 1 ∨ position_y < 1 then
    ({ success := false,
       error := some "Position coordinates must be positive integers" }, [])
  else
    let text1 := if pyBlank text then " " else text
    let disp := if text1.length > MAX_TEXT_LENGTH
      then String.mk (text1.toList.take MAX_TEXT_LENGTH) else text1
    let wasTruncated : Bool := decide (text1.length > MAX_TEXT_LENGTH)
    match sendErr with
    | some e => ({ success := false, error := some e }, [Ev.errorCb e])
    | none =>
        ({ success := true, text_displayed := some disp,
           original_text := some text1, truncated := some wasTruncated,
           text_length := some disp.length }, [Ev.sendMessage 0x11])

/-- The dict returned by `capture_photo`; `capture_count` and the other
metadata fields are populated only on success. -/
structure CaptureResult where
  success : Bool
  error : Option String := none
  image_data : Option Photo := none
  size_bytes : Option Nat := none
  triggered_by : Option String := none
  capture_count : Option Nat := none
deriving DecidableEq

/-- Environment of one `capture_photo` call: whether
`frame.send_message(0x0d, ...)` raises, and the photo (if any) that the
device delivers to the queue within the 10 s `asyncio.wait_for` window when
the queue is empty at the call. -/
structure CaptureEnv where
  sendErr : Option String := none
  arrival : Option Photo := none
deriving DecidableEq

/-- Success path of `capture_photo`: a photo `p` was dequeued, the capture
statistics are updated, and the photo callback is invoked. -/
def captureSuccess (s : FrameState) (now : ℚ) (p : Photo) (rest : List Photo) :
    CaptureResult × FrameState × List Ev :=
  let s1 := { s with photo_queue := some rest, last_capture_time := some now,
                     capture_count := s.capture_count + 1 }
  ({ success := true, image_data := some p, size_bytes := some p.length,
     triggered_by := some "manual", capture_count := some s1.capture_count },
   s1, [Ev.sendMessage 0x0d, Ev.photoCb p])

/-- `FrameInterface.capture_photo(resolution)`. -/
def capture_photo (s : FrameState) (env : CaptureEnv) (now : ℚ) :
    CaptureResult × FrameState × List Ev :=
  if ¬ (s.is_connected = true ∧ s.frame = true) then
    ({ success := false, error := some NOT_CONNECTED_MSG }, s, [])
  else
    match s.photo_queue with
    | none =>
        ({ success := false,
           error := some "Photo capture system not initialized - photo_queue is None" },
         s, [])
    | some q =>
      match env.sendErr with
      | some e => ({ success := false, error := some e }, s, [Ev.errorCb e])
      | none =>
        match q with
        | p :: rest => captureSuccess s now p rest
        | [] =>
          match env.arrival with
          | some p => captureSuccess s now p []
          | none =>
              ({ success := false, error := some "Timeout waiting for photo capture" },
               s, [Ev.sendMessage 0x0d])

/-- The dict returned by `get_status`. -/
structure StatusResult where
  connected : Bool
  running : Bool
  connection_retries : Nat
  capture_count : Nat
  last_capture : Option ℚ
  battery_level : Option ℚ
  memory_usage : Option String
  device_response : Option String := none
  error : Option String := none
deriving DecidableEq

/-- Environment of one `get_status` call: whether
`frame.send_lua(..., await_print=True)` raises, the raw response string it
returns otherwise, and the battery/memory pair the `" / "` split-and-parse
extracts from it (`none` when parsing fails). -/
structure StatusEnv where
  luaErr : Option String := none
  resp : Option String := none
  parsed : Option (ℚ × String) := none
deriving DecidableEq

/-- `FrameInterface.get_status()`. -/
def get_status (s : FrameState) (env : StatusEnv) :
    StatusResult × FrameState × List Ev :=
  let base : StatusResult :=
    { connected := s.is_connected, running := s.is_running,
      connection_retries := s.connection_retry_count,
      capture_count := s.capture_count, last_capture := s.last_capture_time,
      battery_level := s.last_battery_level,
      memory_usage := s.last_memory_usage }
  if ¬ (s.is_connected = true ∧ s.frame = true) then (base, s, [])
  else
    match env.luaErr with
    | some e => ({ base with error := some e }, s, [Ev.sendLua])
    | none =>
      let s1 := match env.parsed with
        | some (b, m) =>
            { s with last_battery_level := some b, last_memory_usage := some m }
        | none => s
      ({ base with
          battery_level := s1.last_battery_level,
          memory_usage := s1.last_memory_usage,
          device_response := env.resp },
       s1, [Ev.sendLua, Ev.statusCb])

/-- Environment of one `disconnect` call: the error (if any) each teardown
step raises (`rx_photo.detach`, `detach_print_response_handler`,
`stop_frame_app`, `frame.disconnect`). -/
structure TeardownEnv where
  detachErr : Option String := none
  detachPrintErr : Option String := none
  stopAppErr : Option String := none
  closeErr : Option String := none
deriving DecidableEq

/-- The first error raised by the `if self.frame:` teardown block
(`detach_print_response_handler`, `stop_frame_app`, `frame.disconnect`). -/
def frame_teardown_error (s : FrameState) (env : TeardownEnv) : Option String :=
  if s.frame = true then
    match env.detachPrintErr with
    | some e => some e
    | none =>
      match env.stopAppErr with
      | some e => some e
      | none => env.closeErr
  else none

/-- The first error raised inside the `try:` block of `disconnect`
(executed steps only: `rx_photo.detach` runs only when both `rx_photo` and
`frame` are set, the frame teardown block only when `frame` is set). -/
def teardown_error (s : FrameState) (env : TeardownEnv) : Option String :=
  if s.rx_photo = true ∧ s.frame = true then
    match env.detachErr with
    | some e => some e
    | none => frame_teardown_error s env
  else frame_teardown_error s env

/-- `FrameInterface.disconnect()`.  `is_running` is cleared first; the
state-reset block at the end of the `try:` runs only when no teardown step
raised; a raised error is caught, logged and reported to the error
callback, never propagated. -/
def disconnect (s : FrameState) (env : TeardownEnv) : FrameState × List Ev :=
  let s1 := { s with is_running := false }
  match teardown_error s env with
  | some e => (s1, [Ev.errorCb e])
  | none =>
      ({ s1 with is_connected := false, frame := false, rx_photo := false,
                 photo_queue := none }, [])

/-- Observable effects of `connect`: the start of attempt `i` of the
`for attempt in range(max_retries + 1)` loop, the error-callback invocation
of a failed attempt, and the backoff `asyncio.sleep(2 ** attempt)`. -/
inductive CEvent
  | attempt (i : Nat)
  | errorCb (e : String)
  | sleep (seconds : Nat)
deriving DecidableEq

/-- The dict returned by `connect`: the failure dict carries `error` and
`retry_count`; the success dict carries neither. -/
structure ConnResult where
  success : Bool
  error : Option String := none
  retry_count : Option Nat := none
deriving DecidableEq

/-- The `error` string of the exhaustion dict of `connect`. -/
def connectFailMsg (maxRetries : Nat) (lastErr : Option String) : String :=
  "Failed to connect after " ++ toString (maxRetries + 1) ++ " attempts: " ++
    lastErr.getD "Unknown error"

/-- The retry loop of `FrameInterface.connect(max_retries)`.  `oc i` is the
outcome of attempt `i` (the body of the `try:` up to the success return):
`none` when it succeeds, `some e` when it raises `e`.  Arguments after `oc`:
remaining loop iterations, current attempt index, current
`connection_retry_count`, last error seen. -/
def connectGo (maxRetries : Nat) (oc : Nat → Option String) :
    Nat → Nat → Nat → Option String → ConnResult × List CEvent
  | 0, _, rc, lastErr =>
      ({ success := false, error := some (connectFailMsg maxRetries lastErr),
         retry_count := some rc }, [])
  | fuel + 1, i, rc, _ =>
    match oc i with
    | none => ({ success := true }, [CEvent.attempt i])
    | some e =>
      let r := connectGo maxRetries oc fuel (i + 1) (rc + 1) (some e)
      (r.1, CEvent.attempt i :: CEvent.errorCb e ::
        (if i < maxRetries then CEvent.sleep (2 ^ i) :: r.2 else r.2))

/-- `FrameInterface.connect(max_retries)` from a state whose
`connection_retry_count` is `rc0`. -/
def connect (maxRetries : Nat) (oc : Nat → Option String) (rc0 : Nat) :
    ConnResult × List CEvent :=
  connectGo maxRetries oc (maxRetries + 1) 0 rc0 none

/-- Classification of one Frame print-response line by
`_process_frame_responses` (the semantic category its substring matching
assigns; `other` covers every unmatched or log-only line). -/
inductive Line
  | tapDetected
  | captureError (msg : String)
  | appLoopError (msg : String)
  | tapRegistrationFailed
  | other
deriving DecidableEq

/-- The callback invocations one classified line produces in
`_process_frame_responses`. -/
def lineEvents : Line → List Ev
  | Line.tapDetected => [Ev.tapCb]
  | Line.captureError m => [Ev.errorCb m]
  | Line.appLoopError m => [Ev.errorCb m]
  | Line.tapRegistrationFailed => [Ev.errorCb "Failed to register tap callback"]
  | Line.other => []

/-- Contribution of one line to `responses_processed` (only `TAP_DETECTED`
lines are counted). -/
def lineProcessedCount : Line → Nat
  | Line.tapDetected => 1
  | _ => 0

/-- `FrameInterface._process_frame_responses()`: with no frame it returns 0
at once; otherwise every pending line is classified and dispatched. -/
def process_frame_responses (hasFrame : Bool) (lines : List Line) :
    Nat × List Ev :=
  if hasFrame then ((lines.map lineProcessedCount).sum, lines.flatMap lineEvents)
  else (0, [])

/-- The `while self.photo_queue and not self.photo_queue.empty():` drain of
`run_event_loop`: each queued photo is removed with `get_nowait` and the
photo callback is invoked on it, front of the queue first. -/
def drainPhotos : List Photo → List Ev
  | [] => []
  | p :: rest => Ev.photoCb p :: drainPhotos rest

/-- Environment of one `run_event_loop` iteration: the pending print
responses, whether the status interval has elapsed, the current time and
the outcome of a reconnection attempt (used only when the connection was
lost). -/
structure IterEnv where
  lines : List Line := []
  statusDue : Bool := false
  statusEnv : StatusEnv := {}
  now : ℚ := 0
  reconnectOk : Bool := true

/-- The state after the status-update step (c) of one `run_event_loop`
iteration: the state the `get_status` call leaves when the status interval
elapsed, the pre-step state otherwise. -/
def afterStatus (s1 : FrameState) (env : IterEnv) : FrameState :=
  if env.statusDue then (get_status s1 env.statusEnv).2.1 else s1

/-- The events the status-update step (c) emits. -/
def statusEvents (s1 : FrameState) (env : IterEnv) : List Ev :=
  if env.statusDue then (get_status s1 env.statusEnv).2.2 else []

/-- The `tasks_performed` total of one iteration before the reconnection
step: photos drained, responses processed, plus one for a status update. -/
def iterTasks (s1 : FrameState) (env : IterEnv) (photosProcessed : Nat) :
    Nat :=
  photosProcessed + (process_frame_responses s1.frame env.lines).1 +
    (if env.statusDue then 1 else 0)

/-- The adaptive `asyncio.sleep` interval: 0.02 s when any task was
performed this iteration, 0.05 s when idle. -/
def adaptiveSleep (tasks : Nat) : ℚ := if 0 < tasks then 2 / 100 else 5 / 100

/-- Steps (b)-(e) of one `run_event_loop` iteration, after the photo drain
produced the state `s1`, `photosProcessed` photos and the callback events
`evPhotos`: process print responses, run a periodic status update, attempt
one reconnect when the connection is lost - breaking out of the loop
(third component `false`, no sleep) when the reconnect fails - and
otherwise end with the adaptive sleep. -/
def eventLoopTail (s1 : FrameState) (env : IterEnv) (photosProcessed : Nat)
    (evPhotos : List Ev) : FrameState × List Ev × Bool :=
  if (afterStatus s1 env).is_connected = false then
    if env.reconnectOk then
      ({ afterStatus s1 env with is_connected := true },
       evPhotos ++ (process_frame_responses s1.frame env.lines).2 ++
         statusEvents s1 env ++
         [Ev.reconnectAttempt,
          Ev.sleep (adaptiveSleep (iterTasks s1 env photosProcessed + 1))],
       true)
    else
      (afterStatus s1 env,
       evPhotos ++ (process_frame_responses s1.frame env.lines).2 ++
         statusEvents s1 env ++ [Ev.reconnectAttempt],
       false)
  else
    (afterStatus s1 env,
     evPhotos ++ (process_frame_responses s1.frame env.lines).2 ++
       statusEvents s1 env ++
       [Ev.sleep (adaptiveSleep (iterTasks s1 env photosProcessed))],
     true)

/-- One iteration of `FrameInterface.run_event_loop`: (a) drain the whole
photo queue, invoking the photo callback per photo and updating the
capture statistics; then hand over to `eventLoopTail` for steps (b)-(e). -/
def run_event_loop_iteration (s : FrameState) (env : IterEnv) :
    FrameState × List Ev × Bool :=
  eventLoopTail
    { s with
      photo_queue := s.photo_queue.map (fun _ => ([] : List Photo)),
      capture_count := s.capture_count + (s.photo_queue.getD []).length,
      last_capture_time := if (s.photo_queue.getD []).isEmpty
                           then s.last_capture_time else some env.now }
    env (s.photo_queue.getD []).length
    (drainPhotos (s.photo_queue.getD []))

end FrameInterface

namespace Haptic

/-- A three-axis sensor reading (accelerometer or gyroscope). -/
structure V3 where
  x : ℚ
  y : ℚ
  z : ℚ
deriving DecidableEq

/-- `self.accel_threshold = 0.8`. -/
def ACCEL_THRESHOLD : ℚ := 8 / 10

/-- `self.gyro_threshold = 0.8`. -/
def GYRO_THRESHOLD : ℚ := 8 / 10

/-- `self.touch_cooldown = 15.0`. -/
def TOUCH_COOLDOWN : ℚ := 15

/-- The detector state `_detect_light_tap` reads and writes:
`last_touch_time`, `last_accel` and `last_gyro`. -/
structure DetectorState where
  last_touch_time : ℚ
  last_accel : V3
  last_gyro : V3
deriving DecidableEq

/-- Python `abs()` on a rational, written executably (equal to `|q|`, see
`pyAbs_eq_abs`). -/
def pyAbs (q : ℚ) : ℚ := if q < 0 then -q else q

/-- `total_accel_change`: the summed per-axis absolute acceleration deltas. -/
def totalAccelChange (prev cur : V3) : ℚ :=
  pyAbs (cur.x - prev.x) + pyAbs (cur.y - prev.y) + pyAbs (cur.z - prev.z)

/-- The squared gyroscope magnitude.  The source compares
`math.sqrt(gx**2 + gy**2 + gz**2)` with a positive threshold `t`; this
embedding compares the square with `t ^ 2`, which is equivalent
(`Real.sqrt q < t` iff `q < t ^ 2` for `0 ≤ q`, `0 < t`; see
`gyro_sqrt_gate_iff`). -/
def gyroMagnitudeSq (g : V3) : ℚ := g.x ^ 2 + g.y ^ 2 + g.z ^ 2

/-- `HapticDetector._detect_light_tap(accel_data, gyro_data)` at time
`now` (`time.time()`).  Returns the detection flag and the updated
detector state: inside the cooldown window it returns at once (the last
readings are not updated); otherwise the last readings are always
updated, and `last_touch_time` only on a positive detection. -/
def detect_light_tap (s : DetectorState) (accel gyro : V3) (now : ℚ) :
    Bool × DetectorState :=
  if now - s.last_touch_time < TOUCH_COOLDOWN then (false, s)
  else
    let dx := pyAbs (accel.x - s.last_accel.x)
    let dy := pyAbs (accel.y - s.last_accel.y)
    let dz := pyAbs (accel.z - s.last_accel.z)
    let total := dx + dy + dz
    let gyroSq := gyroMagnitudeSq gyro
    let isTap : Bool := decide
      (total > ACCEL_THRESHOLD ∧ total < 5 ∧ gyroSq < GYRO_THRESHOLD ^ 2 ∧
       total > 2 ∧ gyroSq < (3 / 10 : ℚ) ^ 2 ∧
       (dx > 8 / 10 ∨ dy > 8 / 10 ∨ dz > 8 / 10))
    (isTap,
     { last_accel := accel, last_gyro := gyro,
       last_touch_time := if isTap then now else s.last_touch_time })

/-- One sensor sample pair as consumed by `_monitor_accelerometer`. -/
structure Sample where
  accel : V3
  gyro : V3
  time : ℚ
deriving DecidableEq

/-- The monitoring loop restricted to detection: feed each sample through
`_detect_light_tap`, collecting the times of the emitted tap events. -/
def runDetector : DetectorState → List Sample → List ℚ
  | _, [] => []
  | s, smp :: rest =>
    let r := detect_light_tap s smp.accel smp.gyro smp.time
    if r.1 then smp.time :: runDetector r.2 rest else runDetector r.2 rest

/-- Observable effects of `_handle_touch_detected`: the single
`_capture_photo()` call it makes, the capture-settings message that call
sends, and the touch-callback invocation with its `success` field. -/
inductive HEvent
  | captureAttempt
  | sendMessage (msgType : Nat)
  | touchCb (success : Bool)
deriving DecidableEq

/-- Environment of one `_capture_photo` call of HapticDetector: whether
`self.frame` and `self.photo_queue` are established, and the photo (if
any) delivered within the 10 s wait. -/
structure TouchEnv where
  hasFrame : Bool := true
  arrival : Option Photo := none
deriving DecidableEq

/-- `HapticDetector._capture_photo()`: with no frame or queue it fails
without sending; otherwise it sends the capture-settings message and
succeeds exactly when a photo arrives in time. -/
def capture_photo (env : TouchEnv) : Bool × List HEvent :=
  if env.hasFrame = false then (false, [])
  else
    match env.arrival with
    | some _ => (true, [HEvent.sendMessage 0x0d])
    | none => (false, [HEvent.sendMessage 0x0d])

/-- `HapticDetector._handle_touch_detected()`: it first calls
`_capture_photo()` (exactly once), then - whether the capture succeeded
or failed - invokes the touch callback (when one is registered) with a
`callback_data` dict whose `success` field is the capture outcome. -/
def handle_touch_detected (cbSet : Bool) (env : TouchEnv) : List HEvent :=
  let c := capture_photo env
  HEvent.captureAttempt :: c.2 ++ (if cbSet then [HEvent.touchCb c.1] else [])

/-- Recognizer for the `_capture_photo()` call marker in a trace. -/
def isCaptureAttempt : HEvent → Bool
  | HEvent.captureAttempt => true
  | _ => false

/-- A sample that passes every accel/gyro gate of `_detect_light_tap`
against the previous reading `prev` (the effective band once the redundant
weaker thresholds are absorbed): it would be detected as a tap whenever
the cooldown has elapsed. -/
def qualifyingImpulse (prev : V3) (smp : Sample) : Prop :=
  2 < totalAccelChange prev smp.accel ∧
  totalAccelChange prev smp.accel < 5 ∧
  gyroMagnitudeSq smp.gyro < (3 / 10 : ℚ) ^ 2 ∧
  (8 / 10 < pyAbs (smp.accel.x - prev.x) ∨
   8 / 10 < pyAbs (smp.accel.y - prev.y) ∨
   8 / 10 < pyAbs (smp.accel.z - prev.z))

end Haptic

namespace FrameInterface

/-- The photo carried by a photo-callback event, if the event is one. -/
def photoPayload : Ev → Option Photo
  | Ev.photoCb p => some p
  | _ => none

/-- Recognizer for `asyncio.sleep` events. -/
def isSleepEv : Ev → Bool
  | Ev.sleep _ => true
  | _ => false

/-- Recognizer for attempt-start events of `connect`. -/
def isAttempt : CEvent → Bool
  | CEvent.attempt _ => true
  | _ => false

/-- Recognizer for error-callback events of `connect`. -/
def isConnErrorCb : CEvent → Bool
  | CEvent.errorCb _ => true
  | _ => false

/-- A fully disconnected `FrameInterface` (the state right after
`__init__`). -/
def sDisconnected : FrameState :=
  { is_connected := false, is_running := false, frame := false,
    rx_photo := false, photo_queue := none, capture_count := 0,
    last_capture_time := none, connection_retry_count := 0,
    last_battery_level := none, last_memory_usage := none }

/-- A connected `FrameInterface` with an attached, empty photo queue. -/
def sConnected : FrameState :=
  { is_connected := true, is_running := true, frame := true,
    rx_photo := true, photo_queue := some [], capture_count := 0,
    last_capture_time := none, connection_retry_count := 0,
    last_battery_level := none, last_memory_usage := none }

/-- An 80-character all-blank input for `display_text`. -/
def blank80 : String := String.mk (List.replicate 80 ' ')

/-- A connected `FrameInterface` with two photos pending in the queue. -/
def sQueue2 : FrameState :=
  { sConnected with photo_queue := some [[1], [2, 3]] }

end FrameInterface

namespace FrameInterface

/-- C8: for every call to `display_text` with `x < 1` or `y < 1`, the call
returns a failure result and no message is sent to the device - the
rejection happens before any I/O. -/
theorem display_text_rejects_nonpositive (s : FrameState)
    (sendErr : Option String) (text : String) (x y : Int)
    (h : x < 1 ∨ y < 1) :
    (display_text s sendErr text x y).1.success = false ∧
    (display_text s sendErr text x y).2 = [] := by
  unfold display_text
  by_cases hc : s.is_connected = true ∧ s.frame = true
  · rw [if_neg (not_not_intro hc), if_pos h]
    exact ⟨rfl, rfl⟩
  · rw [if_pos hc]
    exact ⟨rfl, rfl⟩

/-- C8 witness: `display_text` at `x = 0` on a connected state fails and
sends nothing. -/
theorem display_text_rejects_nonpositive_witness :
    (display_text sConnected none "hello" 0 1).1.success = false ∧
    (display_text sConnected none "hello" 0 1).2 = [] :=
  display_text_rejects_nonpositive sConnected none "hello" 0 1
    (Or.inl (by decide))

/-- C9 counterexample: a connected `display_text` call on an input of 80
space characters (length 80 > 50) returns `truncated = false` and a
displayed text of a single space, not the input truncated to 50 with
`truncated = true`: the empty-after-strip replacement happens before the
truncation check. -/
theorem display_text_blank_counterexample :
    blank80.length = 80 ∧
    (display_text sConnected none blank80 1 1).1.truncated = some false ∧
    (display_text sConnected none blank80 1 1).1.text_displayed = some " " ∧
    ¬ ((display_text sConnected none blank80 1 1).1.truncated = some true) := by
  refine ⟨rfl, rfl, rfl, by decide⟩

/-- C9 (amended): on a connected `display_text` call whose send succeeds,
an input containing at least one non-whitespace character is truncated to
exactly 50 characters with `truncated = true` when longer than 50, and
returned unchanged with `truncated = false` when of length at most 50; an
all-whitespace (or empty) input is first replaced by a single space, so it
is displayed as " " with `truncated = false` whatever its length. -/
theorem display_text_truncation_amended (s : FrameState) (text : String)
    (x y : Int) (hconn : s.is_connected = true) (hframe : s.frame = true)
    (hx : 1 ≤ x) (hy : 1 ≤ y) :
    (pyBlank text = false →
       (text.length > 50 →
          (display_text s none text x y).1.text_displayed =
            some (String.mk (text.toList.take 50)) ∧
          (String.mk (text.toList.take 50)).length = 50 ∧
          (display_text s none text x y).1.truncated = some true) ∧
       (text.length ≤ 50 →
          (display_text s none text x y).1.text_displayed = some text ∧
          (display_text s none text x y).1.truncated = some false)) ∧
    (pyBlank text = true →
       (display_text s none text x y).1.text_displayed = some " " ∧
       (display_text s none text x y).1.truncated = some false) := by
  have hok : display_text s none text x y =
      (let text1 := if pyBlank text then " " else text
       let disp := if text1.length > MAX_TEXT_LENGTH
         then String.mk (text1.toList.take MAX_TEXT_LENGTH) else text1
       ({ success := true, text_displayed := some disp,
          original_text := some text1,
          truncated := some (decide (text1.length > MAX_TEXT_LENGTH)),
          text_length := some disp.length }, [Ev.sendMessage 0x11])) := by
    unfold display_text
    rw [if_neg (not_not_intro ⟨hconn, hframe⟩),
        if_neg (by push_neg; exact ⟨hx, hy⟩)]
  rw [hok]
  constructor
  · intro hblank
    simp only [hblank, Bool.false_eq_true, if_false]
    constructor
    · intro hlen
      have hlen2 : text.length > MAX_TEXT_LENGTH := hlen
      simp only [if_pos hlen2]
      refine ⟨rfl, ?_, by simp [decide_eq_true hlen2]⟩
      show (text.toList.take MAX_TEXT_LENGTH).length = 50
      have htl : text.toList.length = text.length := rfl
      simp [List.length_take, htl, MAX_TEXT_LENGTH]
      omega
    · intro hlen
      have hlen2 : ¬ (text.length > MAX_TEXT_LENGTH) := by
        simp only [MAX_TEXT_LENGTH]; omega
      simp only [if_neg hlen2]
      simp [decide_eq_false hlen2]
  · intro hblank
    simp only [hblank, if_true]
    have h1 : ¬ ((" " : String).length > MAX_TEXT_LENGTH) := by decide
    simp only [if_neg h1]
    simp [decide_eq_false h1]

/-- C9 witness: an 80-character run of the letter A is truncated with the
flag set. -/
theorem display_text_truncation_amended_witness :
    (display_text sConnected none (String.mk (List.replicate 80 'A')) 1 1).1.truncated =
      some true :=
  (((display_text_truncation_amended sConnected
      (String.mk (List.replicate 80 'A')) 1 1 rfl rfl (by decide)
      (by decide)).1 (by decide)).1 (by decide)).2.2

/-- C3 counterexample: `get_status` on a disconnected state does not
short-circuit with a structured "not connected" error - it returns the
cached status snapshot with no error field at all (it does, however,
perform no device I/O). -/
theorem get_status_disconnected_counterexample :
    (get_status sDisconnected {}).1.error = none ∧
    ¬ ((get_status sDisconnected {}).1.error = some NOT_CONNECTED_MSG) ∧
    (get_status sDisconnected {}).2.2 = [] := by
  exact ⟨rfl, by decide, rfl⟩

/-- C3 (amended): when the connection state is not Ready
(`is_connected = false`), `capture_photo` and `display_text` short-circuit
with the structured "not connected" error and perform no device I/O, and
`get_status` also short-circuits performing no device I/O and touching no
state - but it returns the cached status snapshot (whose `connected` field
is false and whose error field is empty) rather than a "not connected"
error. -/
theorem not_connected_short_circuit_amended (s : FrameState)
    (cenv : CaptureEnv) (senv : StatusEnv) (sendErr : Option String)
    (text : String) (x y : Int) (now : ℚ) (h : s.is_connected = false) :
    ((capture_photo s cenv now).1.success = false ∧
     (capture_photo s cenv now).1.error = some NOT_CONNECTED_MSG ∧
     (capture_photo s cenv now).2.1 = s ∧
     (capture_photo s cenv now).2.2 = []) ∧
    ((display_text s sendErr text x y).1.success = false ∧
     (display_text s sendErr text x y).1.error = some NOT_CONNECTED_MSG ∧
     (display_text s sendErr text x y).2 = []) ∧
    ((get_status s senv).1.connected = false ∧
     (get_status s senv).1.error = none ∧
     (get_status s senv).2.1 = s ∧
     (get_status s senv).2.2 = []) := by
  have hc : ¬ (s.is_connected = true ∧ s.frame = true) := by
    intro hcc
    rw [h] at hcc
    exact absurd hcc.1 (by decide)
  unfold capture_photo display_text get_status
  rw [if_pos hc, if_pos hc, if_pos hc]
  exact ⟨⟨rfl, rfl, rfl, rfl⟩, ⟨rfl, rfl, rfl⟩, ⟨h, rfl, rfl, rfl⟩⟩

/-- C3 witness: the amended short-circuit behaviour at the freshly
initialized (disconnected) state. -/
theorem not_connected_short_circuit_amended_witness :
    (capture_photo sDisconnected {} 0).1.error = some NOT_CONNECTED_MSG ∧
    (capture_photo sDisconnected {} 0).2.2 = [] :=
  ⟨(not_connected_short_circuit_amended sDisconnected {} {} none "x" 1 1 0
      rfl).1.2.1,
   (not_connected_short_circuit_amended sDisconnected {} {} none "x" 1 1 0
      rfl).1.2.2.2⟩

/-- C5 counterexample: when the first teardown step (`rx_photo.detach`)
raises, `disconnect` swallows the error but skips the state reset -
`is_connected` stays true, refuting the claimed unconditional reset to
Disconnected. -/
theorem disconnect_reset_counterexample :
    ¬ ((disconnect sConnected { detachErr := some "boom" }).1.is_connected
         = false) := by
  decide

/-- C5 (amended): `disconnect` never propagates a teardown error - a
raised error is logged and reported to the error callback - and it always
clears `is_running` first; the reset of the connection state
(`is_connected` false, `frame`, `rx_photo`, `photo_queue` cleared) happens
exactly when no executed teardown step raises, while after a raised
teardown error those fields keep their previous values. -/
theorem disconnect_teardown_amended (s : FrameState) (env : TeardownEnv) :
    (disconnect s env).1.is_running = false ∧
    (teardown_error s env = none →
       (disconnect s env).1.is_connected = false ∧
       (disconnect s env).1.frame = false ∧
       (disconnect s env).1.rx_photo = false ∧
       (disconnect s env).1.photo_queue = none ∧
       (disconnect s env).2 = []) ∧
    (∀ e, teardown_error s env = some e →
       (disconnect s env).2 = [Ev.errorCb e] ∧
       (disconnect s env).1.is_connected = s.is_connected ∧
       (disconnect s env).1.frame = s.frame ∧
       (disconnect s env).1.rx_photo = s.rx_photo ∧
       (disconnect s env).1.photo_queue = s.photo_queue) := by
  unfold disconnect
  cases hte : teardown_error s env with
  | none =>
    refine ⟨rfl, fun _ => ⟨rfl, rfl, rfl, rfl, rfl⟩, fun e he => ?_⟩
    exact absurd he (by simp)
  | some e0 =>
    refine ⟨rfl, fun hn => absurd hn (by simp), fun e he => ?_⟩
    have : e0 = e := by injection he
    subst this
    exact ⟨rfl, rfl, rfl, rfl, rfl⟩

/-- C10: a `capture_photo` call that returns an error result (not
connected, queue missing, send failure, or the 10 s photo timeout) leaves
`capture_count` and `last_capture_time` unchanged and never invokes the
photo callback; the counter is incremented and the photo callback invoked
exactly on the success path, after a photo is dequeued. -/
theorem capture_photo_stats_spec (s : FrameState) (env : CaptureEnv)
    (now : ℚ) :
    ((capture_photo s env now).1.success = false →
       (capture_photo s env now).2.1.capture_count = s.capture_count ∧
       (capture_photo s env now).2.1.last_capture_time
         = s.last_capture_time ∧
       ∀ p, Ev.photoCb p ∉ (capture_photo s env now).2.2) ∧
    ((capture_photo s env now).1.success = true →
       (capture_photo s env now).2.1.capture_count = s.capture_count + 1 ∧
       (capture_photo s env now).2.1.last_capture_time = some now ∧
       ∃ p, (capture_photo s env now).2.2
              = [Ev.sendMessage 0x0d, Ev.photoCb p] ∧
            (capture_photo s env now).1.image_data = some p) := by
  unfold capture_photo captureSuccess
  by_cases hc : s.is_connected = true ∧ s.frame = true
  · rw [if_neg (not_not_intro hc)]
    cases hq : s.photo_queue with
    | none =>
      refine ⟨fun _ => ⟨rfl, rfl, fun p hp => ?_⟩, fun hs => absurd hs (by simp)⟩
      simp at hp
    | some q =>
      cases hse : env.sendErr with
      | some e =>
        refine ⟨fun _ => ⟨rfl, rfl, fun p hp => ?_⟩,
                fun hs => absurd hs (by simp)⟩
        simp at hp
      | none =>
        cases q with
        | cons p rest =>
          refine ⟨fun hf => absurd hf (by simp), fun _ => ⟨rfl, rfl, p, rfl, rfl⟩⟩
        | nil =>
          cases har : env.arrival with
          | some p =>
            refine ⟨fun hf => absurd hf (by simp),
                    fun _ => ⟨rfl, rfl, p, rfl, rfl⟩⟩
          | none =>
            refine ⟨fun _ => ⟨rfl, rfl, fun p hp => ?_⟩,
                    fun hs => absurd hs (by simp)⟩
            simp at hp
  · rw [if_pos hc]
    refine ⟨fun _ => ⟨rfl, rfl, fun p hp => ?_⟩, fun hs => absurd hs (by simp)⟩
    simp at hp

end FrameInterface

namespace Haptic

/-- C4 counterexample: on an accepted tap with an established frame and a
successful capture, `_handle_touch_detected` sends the capture request
first and invokes the touch callback only afterwards (with the capture
result), so the callback is not invoked strictly before the capture is
requested. -/
theorem tap_callback_order_counterexample :
    handle_touch_detected true { hasFrame := true, arrival := some [1] } =
      [HEvent.captureAttempt, HEvent.sendMessage 0x0d, HEvent.touchCb true] ∧
    ¬ ((handle_touch_detected true
          { hasFrame := true, arrival := some [1] }).indexOf
         (HEvent.touchCb true) <
       (handle_touch_detected true
          { hasFrame := true, arrival := some [1] }).indexOf
         (HEvent.sendMessage 0x0d)) := by
  decide

/-- C4 (amended): every accepted tap results in exactly one capture
attempt, and that capture attempt comes first; the touch callback, when
one is registered, is invoked exactly once, after the capture attempt,
carrying the capture outcome. -/
theorem tap_capture_coupling_amended (cbSet : Bool) (env : TouchEnv) :
    (handle_touch_detected cbSet env).countP isCaptureAttempt = 1 ∧
    (handle_touch_detected cbSet env).head? = some HEvent.captureAttempt ∧
    (cbSet = true →
       (handle_touch_detected cbSet env).getLast? =
         some (HEvent.touchCb (capture_photo env).1)) := by
  unfold handle_touch_detected capture_photo
  cases env with
  | mk hasFrame arrival =>
    cases hasFrame <;> cases arrival <;> cases cbSet <;>
      simp [isCaptureAttempt, List.countP_cons, List.countP_nil]

/-- The executable `pyAbs` agrees with the absolute value. -/
theorem pyAbs_eq_abs (q : ℚ) : pyAbs q = |q| := by
  unfold pyAbs
  by_cases h : q < 0
  · rw [if_pos h, abs_of_neg h]
  · rw [if_neg h, abs_of_nonneg (not_lt.mp h)]

/-- The gyroscope gate as the source writes it - `math.sqrt(q) < t` with a
positive threshold `t` - is exactly the squared comparison `q < t ^ 2`
used by `detect_light_tap`. -/
theorem gyro_sqrt_gate_iff (q t : ℚ) (ht : 0 < t) :
    Real.sqrt (q : ℝ) < (t : ℝ) ↔ (q : ℝ) < (t : ℝ) ^ 2 :=
  Real.sqrt_lt' (by exact_mod_cast ht)

/-- Inside the cooldown window `_detect_light_tap` detects nothing. -/
theorem detect_fst_in_cooldown (s : DetectorState) (a g : V3) (now : ℚ)
    (h : now - s.last_touch_time < TOUCH_COOLDOWN) :
    (detect_light_tap s a g now).1 = false := by
  unfold detect_light_tap
  rw [if_pos h]

/-- A positive detection happens only at or after the cooldown deadline. -/
theorem detect_fst_cooldown_le (s : DetectorState) (a g : V3) (now : ℚ)
    (h : (detect_light_tap s a g now).1 = true) :
    s.last_touch_time + TOUCH_COOLDOWN ≤ now := by
  by_cases hcd : now - s.last_touch_time < TOUCH_COOLDOWN
  · rw [detect_fst_in_cooldown s a g now hcd] at h
    exact absurd h (by simp)
  · linarith [not_lt.mp hcd]

/-- `last_touch_time` after a `_detect_light_tap` step: the sample time on
a positive detection, unchanged otherwise. -/
theorem detect_snd_touch_time (s : DetectorState) (a g : V3) (now : ℚ) :
    (detect_light_tap s a g now).2.last_touch_time =
      if (detect_light_tap s a g now).1 = true then now
      else s.last_touch_time := by
  unfold detect_light_tap
  by_cases hcd : now - s.last_touch_time < TOUCH_COOLDOWN
  · simp [if_pos hcd]
  · simp [if_neg hcd]

/-- `last_accel` after a `_detect_light_tap` step is either unchanged
(cooldown early return) or the new sample. -/
theorem detect_snd_last_accel (s : DetectorState) (a g : V3) (now : ℚ) :
    (detect_light_tap s a g now).2.last_accel = s.last_accel ∨
    (detect_light_tap s a g now).2.last_accel = a := by
  unfold detect_light_tap
  by_cases hcd : now - s.last_touch_time < TOUCH_COOLDOWN
  · rw [if_pos hcd]
    exact Or.inl rfl
  · rw [if_neg hcd]
    exact Or.inr rfl

/-- With a computed acceleration delta of at most 2 the detector never
fires (the effective lower bound of the band is strict at 2). -/
theorem detect_no_tap_of_small (s : DetectorState) (a g : V3) (now : ℚ)
    (h : totalAccelChange s.last_accel a ≤ 2) :
    (detect_light_tap s a g now).1 = false := by
  unfold detect_light_tap
  by_cases hcd : now - s.last_touch_time < TOUCH_COOLDOWN
  · rw [if_pos hcd]
  · rw [if_neg hcd]
    show decide _ = false
    apply decide_eq_false
    intro hcon
    have h4 := hcon.2.2.2.1
    unfold totalAccelChange at h
    linarith

/-- No tap is ever emitted from a run whose acceleration readings
(including the initial `last_accel`) stay pairwise within total delta 2,
whatever the staleness pattern that the cooldown early return induces. -/
theorem runDetector_nil_of_cloud :
    ∀ (samples : List Sample) (s : DetectorState) (M : List V3),
      s.last_accel ∈ M → (∀ smp ∈ samples, smp.accel ∈ M) →
      (∀ a ∈ M, ∀ b ∈ M, totalAccelChange a b ≤ 2) →
      runDetector s samples = [] := by
  intro samples
  induction samples with
  | nil =>
    intro s M _ _ _
    rfl
  | cons smp rest ih =>
    intro s M hmem hsub hM
    have hno : (detect_light_tap s smp.accel smp.gyro smp.time).1 = false :=
      detect_no_tap_of_small s smp.accel smp.gyro smp.time
        (hM s.last_accel hmem smp.accel (hsub smp (List.mem_cons_self _ _)))
    have hacc := detect_snd_last_accel s smp.accel smp.gyro smp.time
    simp only [runDetector, hno, Bool.false_eq_true, if_false]
    refine ih _ M ?_ (fun s2 h2 => hsub s2 (List.mem_cons_of_mem _ h2)) hM
    rcases hacc with hcase | hcase
    · rw [hcase]
      exact hmem
    · rw [hcase]
      exact hsub smp (List.mem_cons_self _ _)

/-- C6: past the cooldown gate, `_detect_light_tap` declares a tap exactly
when the summed per-axis acceleration delta lies in the (2, 5) band, the
(squared) gyroscope magnitude is below its 0.3 threshold, and at least one
individual axis delta exceeds the 0.8 per-axis floor; and a run whose
acceleration readings stay pairwise within total delta 2 (in particular, a
sequence whose delta stays below the lower bound) never emits a tap
event. -/
theorem detect_light_tap_spec :
    (∀ (s : DetectorState) (a g : V3) (now : ℚ),
        TOUCH_COOLDOWN ≤ now - s.last_touch_time →
        ((detect_light_tap s a g now).1 = true ↔
          (2 < totalAccelChange s.last_accel a ∧
           totalAccelChange s.last_accel a < 5 ∧
           gyroMagnitudeSq g < (3 / 10 : ℚ) ^ 2 ∧
           (8 / 10 < pyAbs (a.x - s.last_accel.x) ∨
            8 / 10 < pyAbs (a.y - s.last_accel.y) ∨
            8 / 10 < pyAbs (a.z - s.last_accel.z))))) ∧
    (∀ (s0 : DetectorState) (samples : List Sample),
        (∀ a ∈ s0.last_accel :: samples.map Sample.accel,
         ∀ b ∈ s0.last_accel :: samples.map Sample.accel,
            totalAccelChange a b ≤ 2) →
        runDetector s0 samples = []) := by
  constructor
  · intro s a g now h
    unfold detect_light_tap
    rw [if_neg (not_lt.mpr h)]
    show decide _ = true ↔ _
    rw [decide_eq_true_eq]
    unfold totalAccelChange ACCEL_THRESHOLD GYRO_THRESHOLD
    have e1 : ((3 : ℚ) / 10) ^ 2 = 9 / 100 := by norm_num
    have e2 : ((8 : ℚ) / 10) ^ 2 = 64 / 100 := by norm_num
    constructor
    · rintro ⟨h1, h2, h3, h4, h5, h6⟩
      exact ⟨h4, h2, h5, h6⟩
    · rintro ⟨h4, h2, h5, h6⟩
      refine ⟨by linarith, h2, ?_, h4, h5, h6⟩
      rw [e2]
      rw [e1] at h5
      linarith
  · intro s0 samples hcloud
    exact runDetector_nil_of_cloud samples s0
      (s0.last_accel :: samples.map Sample.accel)
      (List.mem_cons_self _ _)
      (fun smp hs => List.mem_cons_of_mem _ (List.mem_map_of_mem _ hs))
      hcloud

/-- The times of the taps a run emits are spaced by at least the cooldown
and all lie at or after the starting cooldown deadline. -/
theorem runDetector_spaced :
    ∀ (samples : List Sample) (s : DetectorState),
      (∀ t ∈ runDetector s samples,
         s.last_touch_time + TOUCH_COOLDOWN ≤ t) ∧
      List.Pairwise (fun a b => a + TOUCH_COOLDOWN ≤ b)
        (runDetector s samples) := by
  intro samples
  induction samples with
  | nil =>
    intro s
    exact ⟨fun t ht => absurd ht (by simp [runDetector]),
           by simp [runDetector]⟩
  | cons smp rest ih =>
    intro s
    by_cases htap : (detect_light_tap s smp.accel smp.gyro smp.time).1 = true
    · have hcd := detect_fst_cooldown_le s smp.accel smp.gyro smp.time htap
      have hlt : (detect_light_tap s smp.accel smp.gyro smp.time).2.last_touch_time
          = smp.time := by
        rw [detect_snd_touch_time, if_pos htap]
      have ihh := ih (detect_light_tap s smp.accel smp.gyro smp.time).2
      have hrun : runDetector s (smp :: rest) =
          smp.time ::
            runDetector (detect_light_tap s smp.accel smp.gyro smp.time).2 rest := by
        simp only [runDetector, htap, if_true]
      rw [hrun]
      have hCD : (0 : ℚ) ≤ TOUCH_COOLDOWN := by norm_num [TOUCH_COOLDOWN]
      constructor
      · intro t ht
        rcases List.mem_cons.mp ht with hcase | hcase
        · rw [hcase]
          linarith
        · have hb := ihh.1 t hcase
          rw [hlt] at hb
          linarith
      · refine List.Pairwise.cons ?_ ihh.2
        intro b hb
        have := ihh.1 b hb
        rw [hlt] at this
        exact this
    · have hf : (detect_light_tap s smp.accel smp.gyro smp.time).1 = false :=
        Bool.not_eq_true _ |>.mp htap
      have hlt : (detect_light_tap s smp.accel smp.gyro smp.time).2.last_touch_time
          = s.last_touch_time := by
        rw [detect_snd_touch_time, if_neg htap]
      have hrun : runDetector s (smp :: rest) =
          runDetector (detect_light_tap s smp.accel smp.gyro smp.time).2 rest := by
        simp only [runDetector, hf, Bool.false_eq_true, if_false]
      rw [hrun]
      have ihh := ih (detect_light_tap s smp.accel smp.gyro smp.time).2
      rw [hlt] at ihh
      exact ihh

/-- C7: no two emitted tap events are closer together than the cooldown
(every later tap time exceeds every earlier one by at least
`TOUCH_COOLDOWN`), and two qualifying impulses separated by less than the
cooldown emit exactly one tap event, at the time of the first. -/
theorem tap_cooldown_spec :
    (∀ (s0 : DetectorState) (samples : List Sample),
        List.Pairwise (fun a b => a + TOUCH_COOLDOWN ≤ b)
          (runDetector s0 samples)) ∧
    (∀ (s0 : DetectorState) (first second : Sample),
        (detect_light_tap s0 first.accel first.gyro first.time).1 = true →
        qualifyingImpulse first.accel second →
        second.time - first.time < TOUCH_COOLDOWN →
        runDetector s0 [first, second] = [first.time]) := by
  constructor
  · intro s0 samples
    exact (runDetector_spaced samples s0).2
  · intro s0 first second h1 _hq hlt
    have hstate : (detect_light_tap s0 first.accel first.gyro first.time).2.last_touch_time
        = first.time := by
      rw [detect_snd_touch_time, if_pos h1]
    have h2 : (detect_light_tap
        (detect_light_tap s0 first.accel first.gyro first.time).2
        second.accel second.gyro second.time).1 = false := by
      apply detect_fst_in_cooldown
      rw [hstate]
      exact hlt
    simp [runDetector, h1, h2]

end Haptic

namespace FrameInterface

/-- While iterations remain, the trace of a `connectGo` run begins with
the start of its first attempt. -/
theorem connectGo_head (n : Nat) (oc : Nat → Option String)
    (fuel i rc : Nat) (lastE : Option String) :
    ∃ t, (connectGo n oc (fuel + 1) i rc lastE).2 = CEvent.attempt i :: t := by
  cases hoc : oc i with
  | none => exact ⟨[], by simp [connectGo, hoc]⟩
  | some e =>
    refine ⟨CEvent.errorCb e ::
      (if i < n then CEvent.sleep (2 ^ i) ::
          (connectGo n oc fuel (i + 1) (rc + 1) (some e)).2
        else (connectGo n oc fuel (i + 1) (rc + 1) (some e)).2), ?_⟩
    simp [connectGo, hoc]

/-- A `connectGo` run makes at most as many attempts as it has iterations
left. -/
theorem connectGo_attempts_le (n : Nat) (oc : Nat → Option String) :
    ∀ (fuel i rc : Nat) (lastE : Option String),
      (connectGo n oc fuel i rc lastE).2.countP isAttempt ≤ fuel := by
  intro fuel
  induction fuel with
  | zero =>
    intro i rc lastE
    simp [connectGo]
  | succ f ihf =>
    intro i rc lastE
    cases hoc : oc i with
    | none => simp [connectGo, hoc, isAttempt]
    | some e =>
      have hrec := ihf (i + 1) (rc + 1) (some e)
      by_cases hin : i < n <;>
        simp [connectGo, hoc, hin, List.countP_cons, isAttempt,
              isConnErrorCb] <;>
        omega

/-- Error-callback count bookkeeping of a `connectGo` run: one per failed
attempt, so one fewer than the attempt count on success and equal to it on
exhaustion. -/
theorem connectGo_error_count (n : Nat) (oc : Nat → Option String) :
    ∀ (fuel i rc : Nat) (lastE : Option String),
      ((connectGo n oc fuel i rc lastE).1.success = true →
         (connectGo n oc fuel i rc lastE).2.countP isConnErrorCb + 1 =
           (connectGo n oc fuel i rc lastE).2.countP isAttempt) ∧
      ((connectGo n oc fuel i rc lastE).1.success = false →
         (connectGo n oc fuel i rc lastE).2.countP isConnErrorCb =
           (connectGo n oc fuel i rc lastE).2.countP isAttempt) := by
  intro fuel
  induction fuel with
  | zero =>
    intro i rc lastE
    constructor
    · intro hs
      exact absurd hs (by simp [connectGo])
    · intro _
      simp [connectGo]
  | succ f ihf =>
    intro i rc lastE
    cases hoc : oc i with
    | none =>
      constructor
      · intro _
        simp [connectGo, hoc, List.countP_cons, isAttempt, isConnErrorCb]
      · intro hs
        exact absurd hs (by simp [connectGo, hoc])
    | some e =>
      have hrec := ihf (i + 1) (rc + 1) (some e)
      constructor
      · intro hs
        have hs2 : (connectGo n oc f (i + 1) (rc + 1) (some e)).1.success
            = true := by
          simpa [connectGo, hoc] using hs
        have hcount := hrec.1 hs2
        by_cases hin : i < n <;>
          simp [connectGo, hoc, hin, List.countP_cons, isAttempt,
                isConnErrorCb] <;>
          omega
      · intro hs
        have hs2 : (connectGo n oc f (i + 1) (rc + 1) (some e)).1.success
            = false := by
          simpa [connectGo, hoc] using hs
        have hcount := hrec.2 hs2
        by_cases hin : i < n <;>
          simp [connectGo, hoc, hin, List.countP_cons, isAttempt,
                isConnErrorCb] <;>
          omega

/-- Attempts recorded in a `connectGo` run all carry an index at or past
the starting one. -/
theorem connectGo_attempt_mem_ge (n : Nat) (oc : Nat → Option String) :
    ∀ (fuel i rc : Nat) (lastE : Option String) (j : Nat),
      CEvent.attempt j ∈ (connectGo n oc fuel i rc lastE).2 → i ≤ j := by
  intro fuel
  induction fuel with
  | zero =>
    intro i rc lastE j hj
    simp [connectGo] at hj
  | succ f ihf =>
    intro i rc lastE j hj
    cases hoc : oc i with
    | none =>
      simp [connectGo, hoc] at hj
      omega
    | some e =>
      by_cases hin : i < n <;> simp [connectGo, hoc, hin] at hj <;>
        rcases hj with hj | hj
      · omega
      · have := ihf (i + 1) (rc + 1) (some e) j hj
        omega
      · omega
      · have := ihf (i + 1) (rc + 1) (some e) j hj
        omega

/-- Between a failed attempt `j` and the attempt `j + 1` that follows it,
a `connectGo` run records exactly the error callback for attempt `j` and
the `2 ^ j` second backoff sleep, contiguously. -/
theorem connectGo_infix (n : Nat) (oc : Nat → Option String) :
    ∀ (fuel i rc : Nat) (lastE : Option String) (j : Nat) (e : String),
      i + fuel = n + 1 → i ≤ j → oc j = some e →
      CEvent.attempt (j + 1) ∈ (connectGo n oc fuel i rc lastE).2 →
      List.IsInfix
        [CEvent.attempt j, CEvent.errorCb e, CEvent.sleep (2 ^ j),
         CEvent.attempt (j + 1)]
        (connectGo n oc fuel i rc lastE).2 := by
  intro fuel
  induction fuel with
  | zero =>
    intro i rc lastE j e _ _ _ hmem
    simp [connectGo] at hmem
  | succ f ihf =>
    intro i rc lastE j e hinv hij hocj hmem
    cases hoc : oc i with
    | none =>
      simp [connectGo, hoc] at hmem
      omega
    | some e2 =>
      by_cases hji : j = i
      · subst hji
        have he : e2 = e := by
          rw [hocj] at hoc
          exact (Option.some_inj.mp hoc).symm
        subst he
        have hjn : j < n := by
          by_contra hnot
          have hf0 : f = 0 := by omega
          subst hf0
          simp [connectGo, hoc, hnot] at hmem
        obtain ⟨f2, rfl⟩ : ∃ f2, f = f2 + 1 := ⟨f - 1, by omega⟩
        obtain ⟨t, ht⟩ := connectGo_head n oc f2 (j + 1) (rc + 1) (some e2)
        have hshape : (connectGo n oc (f2 + 1 + 1) j rc lastE).2 =
            CEvent.attempt j :: CEvent.errorCb e2 :: CEvent.sleep (2 ^ j) ::
              (connectGo n oc (f2 + 1) (j + 1) (rc + 1) (some e2)).2 := by
          simp [connectGo, hoc, hjn]
        refine ⟨[], t, ?_⟩
        rw [hshape, ht]
        simp
      · have hmem2 : CEvent.attempt (j + 1) ∈
            (connectGo n oc f (i + 1) (rc + 1) (some e2)).2 := by
          by_cases hin : i < n
          · simp [connectGo, hoc, hin] at hmem
            rcases hmem with hmem | hmem
            · omega
            · exact hmem
          · simp [connectGo, hoc, hin] at hmem
            rcases hmem with hmem | hmem
            · omega
            · exact hmem
        obtain ⟨pre, post, hsplit⟩ := ihf (i + 1) (rc + 1) (some e2) j e
          (by omega) (by omega) hocj hmem2
        by_cases hin : i < n
        · have hshape : (connectGo n oc (f + 1) i rc lastE).2 =
              CEvent.attempt i :: CEvent.errorCb e2 :: CEvent.sleep (2 ^ i) ::
                (connectGo n oc f (i + 1) (rc + 1) (some e2)).2 := by
            simp [connectGo, hoc, hin]
          refine ⟨CEvent.attempt i :: CEvent.errorCb e2 ::
            CEvent.sleep (2 ^ i) :: pre, post, ?_⟩
          rw [hshape, ← hsplit]
          simp
        · have hshape : (connectGo n oc (f + 1) i rc lastE).2 =
              CEvent.attempt i :: CEvent.errorCb e2 ::
                (connectGo n oc f (i + 1) (rc + 1) (some e2)).2 := by
            simp [connectGo, hoc, hin]
          refine ⟨CEvent.attempt i :: CEvent.errorCb e2 :: pre, post, ?_⟩
          rw [hshape, ← hsplit]
          simp

/-- When every remaining attempt fails, a `connectGo` run returns the
exhaustion dict: failure, the decorated last error, and the accumulated
retry count. -/
theorem connectGo_exhaust (n : Nat) (oc : Nat → Option String) :
    ∀ (fuel i rc : Nat) (lastE : Option String),
      (∀ j, j < fuel → (oc (i + j)).isSome = true) →
      (connectGo n oc fuel i rc lastE).1 =
        { success := false,
          error := some (connectFailMsg n
            (match fuel with
             | 0 => lastE
             | f + 1 => oc (i + f))),
          retry_count := some (rc + fuel) } := by
  intro fuel
  induction fuel with
  | zero =>
    intro i rc lastE _
    simp [connectGo]
  | succ f ihf =>
    intro i rc lastE hall
    have h0 : (oc i).isSome = true := by simpa using hall 0 (by omega)
    obtain ⟨e, he⟩ := Option.isSome_iff_exists.mp h0
    have hrec := ihf (i + 1) (rc + 1) (some e) (fun j hj => by
      rw [show i + 1 + j = i + (j + 1) from by omega]
      exact hall (j + 1) (by omega))
    have hgo : (connectGo n oc (f + 1) i rc lastE).1 =
        (connectGo n oc f (i + 1) (rc + 1) (some e)).1 := by
      simp [connectGo, he]
    rw [hgo, hrec]
    cases f with
    | zero => simp [he]
    | succ f2 =>
      have e1 : i + 1 + f2 = i + (f2 + 1) := by omega
      have e2 : rc + 1 + (f2 + 1) = rc + (f2 + 1 + 1) := by omega
      simp [e1, e2]

/-- C2: for every `max_retries = n`, `connect` makes at most `n + 1`
attempts; the error callback is invoked exactly once per failed attempt
(one fewer than the attempts on success, one per attempt on exhaustion);
contiguously between attempt `i` and attempt `i + 1` it invokes the error
callback for the failure of attempt `i` and sleeps `2 ^ i` seconds; and on
exhaustion it returns a failure dict carrying the last error and the
accumulated retry count. -/
theorem connect_retry_backoff_spec (n : Nat) (oc : Nat → Option String)
    (rc0 : Nat) :
    ((connect n oc rc0).2.countP isAttempt ≤ n + 1) ∧
    ((connect n oc rc0).1.success = true →
       (connect n oc rc0).2.countP isConnErrorCb + 1 =
         (connect n oc rc0).2.countP isAttempt) ∧
    ((connect n oc rc0).1.success = false →
       (connect n oc rc0).2.countP isConnErrorCb =
         (connect n oc rc0).2.countP isAttempt) ∧
    (∀ i e, oc i = some e →
       CEvent.attempt (i + 1) ∈ (connect n oc rc0).2 →
       List.IsInfix
         [CEvent.attempt i, CEvent.errorCb e, CEvent.sleep (2 ^ i),
          CEvent.attempt (i + 1)] (connect n oc rc0).2) ∧
    ((∀ i, i ≤ n → (oc i).isSome = true) →
       (connect n oc rc0).1 =
         { success := false, error := some (connectFailMsg n (oc n)),
           retry_count := some (rc0 + (n + 1)) }) := by
  refine ⟨connectGo_attempts_le n oc (n + 1) 0 rc0 none,
          (connectGo_error_count n oc (n + 1) 0 rc0 none).1,
          (connectGo_error_count n oc (n + 1) 0 rc0 none).2, ?_, ?_⟩
  · intro i e hoc hmem
    exact connectGo_infix n oc (n + 1) 0 rc0 none i e (by omega) (by omega)
      hoc hmem
  · intro hall
    have hres := connectGo_exhaust n oc (n + 1) 0 rc0 none
      (fun j hj => by simpa using hall j (by omega))
    simpa using hres

/-- Draining the photo queue invokes the photo callback once per queued
photo, front of the queue first. -/
theorem drainPhotos_payloads (q : List Photo) :
    (drainPhotos q).filterMap photoPayload = q := by
  induction q with
  | nil => rfl
  | cons p rest ih => simp [drainPhotos, photoPayload, ih]

/-- Draining the photo queue never sleeps. -/
theorem drainPhotos_no_sleep (q : List Photo) :
    ∀ e ∈ drainPhotos q, isSleepEv e = false := by
  induction q with
  | nil =>
    intro e he
    simp [drainPhotos] at he
  | cons p rest ih =>
    intro e he
    rcases List.mem_cons.mp he with h | h
    · rw [h]
      rfl
    · exact ih e h

/-- Dispatching one classified print line never invokes the photo
callback and never sleeps. -/
theorem lineEvents_shape (l : Line) :
    ∀ e ∈ lineEvents l, photoPayload e = none ∧ isSleepEv e = false := by
  cases l with
  | tapDetected =>
    intro e he
    simp [lineEvents] at he
    subst he
    exact ⟨rfl, rfl⟩
  | captureError m =>
    intro e he
    simp [lineEvents] at he
    subst he
    exact ⟨rfl, rfl⟩
  | appLoopError m =>
    intro e he
    simp [lineEvents] at he
    subst he
    exact ⟨rfl, rfl⟩
  | tapRegistrationFailed =>
    intro e he
    simp [lineEvents] at he
    subst he
    exact ⟨rfl, rfl⟩
  | other =>
    intro e he
    simp [lineEvents] at he

/-- `_process_frame_responses` never invokes the photo callback and never
sleeps, whichever retrieval mechanism served the lines. -/
theorem process_frame_responses_shape (b : Bool) (lines : List Line) :
    ((process_frame_responses b lines).2.filterMap photoPayload = []) ∧
    (∀ e ∈ (process_frame_responses b lines).2, isSleepEv e = false) := by
  cases b with
  | false =>
    refine ⟨rfl, ?_⟩
    intro e he
    simp [process_frame_responses] at he
  | true =>
    simp only [process_frame_responses, if_true]
    constructor
    · rw [List.filterMap_eq_nil_iff]
      intro e he
      obtain ⟨l, hl, hel⟩ := List.mem_flatMap.mp he
      exact (lineEvents_shape l e hel).1
    · intro e he
      obtain ⟨l, hl, hel⟩ := List.mem_flatMap.mp he
      exact (lineEvents_shape l e hel).2

/-- `get_status` leaves the connection flag, the photo queue and the
capture statistics untouched (it only refreshes the cached
battery/memory readings). -/
theorem get_status_state_preserve (s : FrameState) (env : StatusEnv) :
    (get_status s env).2.1.is_connected = s.is_connected ∧
    (get_status s env).2.1.photo_queue = s.photo_queue ∧
    (get_status s env).2.1.capture_count = s.capture_count := by
  unfold get_status
  by_cases hc : s.is_connected = true ∧ s.frame = true
  · rw [if_neg (not_not_intro hc)]
    cases henv : env.luaErr with
    | some e => exact ⟨rfl, rfl, rfl⟩
    | none =>
      cases henv2 : env.parsed with
      | some bm =>
        obtain ⟨b, m⟩ := bm
        exact ⟨rfl, rfl, rfl⟩
      | none => exact ⟨rfl, rfl, rfl⟩
  · rw [if_pos hc]
    exact ⟨rfl, rfl, rfl⟩

/-- `get_status` never invokes the photo callback and never sleeps. -/
theorem get_status_events_shape (s : FrameState) (env : StatusEnv) :
    ∀ e ∈ (get_status s env).2.2,
      photoPayload e = none ∧ isSleepEv e = false := by
  unfold get_status
  by_cases hc : s.is_connected = true ∧ s.frame = true
  · rw [if_neg (not_not_intro hc)]
    cases henv : env.luaErr with
    | some e0 =>
      intro e he
      simp at he
      subst he
      exact ⟨rfl, rfl⟩
    | none =>
      intro e he
      simp at he
      rcases he with h | h <;> subst h <;> exact ⟨rfl, rfl⟩
  · rw [if_pos hc]
    intro e he
    simp at he

/-- The status step preserves the connection flag, the photo queue and the
capture counter. -/
theorem afterStatus_preserve (s1 : FrameState) (env : IterEnv) :
    (afterStatus s1 env).is_connected = s1.is_connected ∧
    (afterStatus s1 env).photo_queue = s1.photo_queue ∧
    (afterStatus s1 env).capture_count = s1.capture_count := by
  unfold afterStatus
  by_cases hsd : env.statusDue = true
  · rw [if_pos hsd]
    exact get_status_state_preserve s1 env.statusEnv
  · rw [if_neg hsd]
    exact ⟨rfl, rfl, rfl⟩

/-- The status step never invokes the photo callback and never sleeps. -/
theorem statusEvents_shape (s1 : FrameState) (env : IterEnv) :
    ∀ e ∈ statusEvents s1 env,
      photoPayload e = none ∧ isSleepEv e = false := by
  unfold statusEvents
  by_cases hsd : env.statusDue = true
  · rw [if_pos hsd]
    exact get_status_events_shape s1 env.statusEnv
  · rw [if_neg hsd]
    intro e he
    simp at he

/-- With the connection up, the tail of an iteration skips the
reconnection step and ends with the adaptive sleep after the photo, print
and status events. -/
theorem eventLoopTail_connected (s1 : FrameState) (env : IterEnv)
    (pp : Nat) (evPhotos : List Ev) (h : s1.is_connected = true) :
    eventLoopTail s1 env pp evPhotos =
      (afterStatus s1 env,
       evPhotos ++ (process_frame_responses s1.frame env.lines).2 ++
         statusEvents s1 env ++
         [Ev.sleep (adaptiveSleep (iterTasks s1 env pp))],
       true) := by
  unfold eventLoopTail
  rw [if_neg]
  rw [(afterStatus_preserve s1 env).1, h]
  simp

/-- C1: with the connection up and `q` the photos enqueued before the
iteration begins, one `run_event_loop` iteration leaves the queue attached
and empty, grows the capture counter by the number of queued photos, and
its event trace is a prefix containing no sleep - whose photo-callback
invocations are exactly the queued photos in enqueue (FIFO) order -
followed by the iteration's single sleep. -/
theorem event_loop_drains_all_photos (s : FrameState) (env : IterEnv)
    (q : List Photo) (hc : s.is_connected = true)
    (hq : s.photo_queue = some q) :
    ((run_event_loop_iteration s env).1.photo_queue = some [] ∧
     (run_event_loop_iteration s env).1.capture_count =
       s.capture_count + q.length) ∧
    (∃ pre d, (run_event_loop_iteration s env).2.1 = pre ++ [Ev.sleep d] ∧
       (∀ x, Ev.sleep x ∉ pre) ∧
       pre.filterMap photoPayload = q) := by
  have hiter : run_event_loop_iteration s env =
      eventLoopTail
        { s with photo_queue := some [],
                 capture_count := s.capture_count + q.length,
                 last_capture_time := if q.isEmpty then s.last_capture_time
                                      else some env.now }
        env q.length (drainPhotos q) := by
    unfold run_event_loop_iteration
    rw [hq]
    rfl
  rw [hiter]
  set s1 : FrameState :=
    { s with photo_queue := some [],
             capture_count := s.capture_count + q.length,
             last_capture_time := if q.isEmpty then s.last_capture_time
                                  else some env.now } with hs1
  rw [eventLoopTail_connected s1 env q.length (drainPhotos q) hc]
  have hstate := afterStatus_preserve s1 env
  refine ⟨⟨?_, ?_⟩,
    ⟨(drainPhotos q ++ (process_frame_responses s1.frame env.lines).2) ++
       statusEvents s1 env,
     adaptiveSleep (iterTasks s1 env q.length), rfl, ?_, ?_⟩⟩
  · show (afterStatus s1 env).photo_queue = some []
    rw [hstate.2.1, hs1]
  · show (afterStatus s1 env).capture_count = s.capture_count + q.length
    rw [hstate.2.2, hs1]
  · intro x hx
    rcases List.mem_append.mp hx with hx | hx
    · rcases List.mem_append.mp hx with hx | hx
      · have := drainPhotos_no_sleep q (Ev.sleep x) hx
        simp [isSleepEv] at this
      · have := (process_frame_responses_shape s1.frame env.lines).2
          (Ev.sleep x) hx
        simp [isSleepEv] at this
    · have := (statusEvents_shape s1 env (Ev.sleep x) hx).2
      simp [isSleepEv] at this
  · rw [List.filterMap_append, List.filterMap_append]
    rw [drainPhotos_payloads q,
        (process_frame_responses_shape s1.frame env.lines).1]
    have hst : (statusEvents s1 env).filterMap photoPayload = [] := by
      rw [List.filterMap_eq_nil_iff]
      intro e he
      exact (statusEvents_shape s1 env e he).1
    rw [hst]
    simp

/-- C1 witness: a connected state with two queued photos has its capture
counter grown by 2 in one iteration. -/
theorem event_loop_drains_all_photos_witness :
    (run_event_loop_iteration sQueue2 {}).1.capture_count =
      sQueue2.capture_count + 2 :=
  (event_loop_drains_all_photos sQueue2 {} [[1], [2, 3]] rfl rfl).1.2

/-- C2 witness: with `max_retries = 1` and every attempt failing, `connect`
returns the exhaustion dict carrying the last error and retry count 2. -/
theorem connect_retry_backoff_spec_witness :
    (connect 1 (fun _ => some "link open failed") 0).1 =
      { success := false,
        error := some (connectFailMsg 1 (some "link open failed")),
        retry_count := some 2 } :=
  (connect_retry_backoff_spec 1 (fun _ => some "link open failed") 0).2.2.2.2
    (fun _ _ => rfl)

/-- C10 witness: a `capture_photo` timeout (empty queue, no arrival)
returns an error and leaves the capture counter unchanged. -/
theorem capture_photo_stats_spec_witness :
    (capture_photo sConnected {} 0).2.1.capture_count =
      sConnected.capture_count :=
  ((capture_photo_stats_spec sConnected {} 0).1 (by decide)).1

/-- C5 witness: with no teardown step raising, `disconnect` resets the
connected flag. -/
theorem disconnect_teardown_amended_witness :
    (disconnect sConnected {}).1.is_connected = false :=
  ((disconnect_teardown_amended sConnected {}).2.1 rfl).1

end FrameInterface

namespace Haptic

/-- C4 witness: an accepted tap with a successful capture makes exactly
one capture attempt. -/
theorem tap_capture_coupling_amended_witness :
    (handle_touch_detected true
        { hasFrame := true, arrival := some [1] }).countP isCaptureAttempt
      = 1 :=
  (tap_capture_coupling_amended true { hasFrame := true, arrival := some [1] }).1

/-- C6 witness: a run of two tiny accelerometer wiggles (all readings
pairwise within total delta 2) emits no tap event. -/
theorem detect_light_tap_spec_witness :
    runDetector
      { last_touch_time := 0, last_accel := ⟨0, 0, 0⟩,
        last_gyro := ⟨0, 0, 0⟩ }
      [{ accel := ⟨1 / 10, 0, 0⟩, gyro := ⟨0, 0, 0⟩, time := 20 },
       { accel := ⟨0, 1 / 10, 0⟩, gyro := ⟨0, 0, 0⟩, time := 21 }] = [] :=
  detect_light_tap_spec.2 _ _ (by
    intro a ha b hb
    fin_cases ha <;> fin_cases hb <;>
      norm_num [totalAccelChange, pyAbs])

/-- C7 witness: two qualifying impulses 10 s apart (below the 15 s
cooldown) emit exactly one tap event, at the first impulse. -/
theorem tap_cooldown_spec_witness :
    runDetector
      { last_touch_time := 0, last_accel := ⟨0, 0, 0⟩,
        last_gyro := ⟨0, 0, 0⟩ }
      [{ accel := ⟨3, 0, 0⟩, gyro := ⟨0, 0, 0⟩, time := 20 },
       { accel := ⟨0, 0, 0⟩, gyro := ⟨0, 0, 0⟩, time := 30 }] = [20] :=
  tap_cooldown_spec.2 _ _ _
    (by norm_num [detect_light_tap, totalAccelChange, pyAbs,
          gyroMagnitudeSq, ACCEL_THRESHOLD, GYRO_THRESHOLD, TOUCH_COOLDOWN])
    (by norm_num [qualifyingImpulse, totalAccelChange, pyAbs,
          gyroMagnitudeSq])
    (by norm_num [TOUCH_COOLDOWN])

end Haptic

end FrameSpec
